import Mathlib

/-!
Shallow embedding of `src/opentelemetry-otlp/src/exporter/http/metrics.rs`:
the `MetricsClient` implementation for `OtlpHttpClient` (its `export` and
`shutdown` methods) and the `build_body` helper, in both feature
configurations (`http-proto` enabled / disabled).

Modelling choices, all driven by the source:
- Bytes are `List Nat` (each byte a `Nat`, values < 256 at use sites).
- `Mutex<Option<Arc<dyn HttpClient>>>` becomes a `GuardedClient` record:
  a `poisoned : Bool` flag (a poisoned lock makes `lock()` return `Err`)
  and the guarded `Option ClientHandle` value.  A client handle is its
  observable behaviour: a function from the outgoing request to the
  transport result, matching the `send` capability of `dyn HttpClient`.
- `export` is pure state passing: it returns the `Result`, the exporter
  state after the call (the source's `export` takes `&self` and never
  writes through the mutex, so the state it returns is the input state),
  the metrics batch after the call (the source takes `&mut` but only ever
  reads), and the list of observable events (lock acquisition, lock
  release, transport send) in the order the source performs them.  The
  source releases the mutex guard at the end of the `and_then` closure,
  before `build_body` and before any network I/O.
- External crates that the source calls (`http`, `prost`, `std::str`) are
  embedded at the granularity the source observes: URI validation inside
  `http::Request::builder` is an abstract predicate `uriOk` (the only way
  the builder chain can fail here), protobuf encoding is an abstract
  `encodeBatch` function, `std::str::from_utf8` is the standard UTF-8
  validation/decoding, written out below.
-/

/-- A metrics batch, `opentelemetry_sdk::metrics::data::ResourceMetrics`.
Its contents are opaque to this file (only the abstract `encodeBatch`
looks inside), so resource and scope metrics are kept as tokens. -/
structure ResourceMetrics where
  resource : Nat
  scope_metrics : List Nat
deriving DecidableEq, Repr

/-- Model of `opentelemetry::metrics::MetricsError`, restricted to the variants this
source constructs: `Other(String)` and `ExportErr(Box<dyn ExportError>)`
wrapping a `crate::Error`. -/
inductive OtlpError where
  /-- Variant `crate::Error::RequestFailed(...)`, carrying the message. -/
  | requestFailed (msg : String)
  /-- Variant `crate::Error::from(prost::EncodeError)`, carrying the message. -/
  | encodeFailed (msg : String)
deriving DecidableEq, Repr

inductive MetricsError where
  | other (msg : String)
  | exportErr (e : OtlpError)
deriving DecidableEq, Repr

/-- Message of the `MetricsError::Other` produced when the guarded client
is already gone: `"exporter is already shut down"`. -/
def alreadyShutDownMsg : String := "exporter is already shut down"

/-- Message of `build_body`'s error when the `http-proto` feature is off. -/
def noProtocolMsg : String := "No http protocol configured. Enable one via `http-proto`"

/-- Message standing for the `Display` of `std::sync::PoisonError`, which
the source converts into `MetricsError` via `map_err(Into::into)` /
`?` (the `From` impl lives outside this file's source). -/
def poisonedLockMsg : String := "poisoned lock: another task failed inside"

/-- An HTTP response as the source observes it: `status()` and `body()`
bytes (`opentelemetry_http::Response<Bytes>`). -/
structure HttpResponse where
  status : Nat
  body : List Nat
deriving DecidableEq, Repr

/-- Predicate `http::StatusCode::is_success`: the 2xx range. -/
def isSuccess (status : Nat) : Bool :=
  200 ≤ status && status < 300

/-- Model of `http::Request<Vec<u8>>` as built by the source: method, URI, header
list (in map order) and body bytes. -/
structure HttpRequest where
  method : String
  uri : String
  headers : List (String × String)
  body : List Nat
deriving DecidableEq, Repr

/-- Lookup in a `http::HeaderMap`: the value currently stored for a name. -/
def headerGet (hs : List (String × String)) (k : String) : Option String :=
  (hs.find? (fun p => p.1 == k)).map Prod.snd

/-- Operation `http::HeaderMap::insert`: stores the value for the name, replacing
(and thus winning over) any value previously stored for it. -/
def headerInsert (hs : List (String × String)) (k v : String) :
    List (String × String) :=
  (k, v) :: hs.filter (fun p => p.1 != k)

/-- The `for (k, v) in &self.headers { request.headers_mut().insert(..) }`
loop: fold `headerInsert` over the configured custom headers. -/
def insertHeaders (hs : List (String × String))
    (custom : List (String × String)) : List (String × String) :=
  custom.foldl (fun acc kv => headerInsert acc kv.1 kv.2) hs

/-- A transport handle: the observable behaviour of the
`Arc<dyn HttpClient>` stored in the mutex — its `send` operation,
returning either a response or a transport error message. -/
def ClientHandle : Type := HttpRequest → Except String HttpResponse

/-- Model of `Mutex<Option<Arc<dyn HttpClient>>>`: the guarded optional client
handle, plus whether the lock is poisoned (`lock()` returns `Err`). -/
structure GuardedClient where
  poisoned : Bool
  value : Option ClientHandle

/-- Operation `Mutex::lock`: fails iff the lock is poisoned, otherwise yields the
guarded value. -/
def GuardedClient.lock (m : GuardedClient) : Except Unit (Option ClientHandle) :=
  if m.poisoned then .error () else .ok m.value

/-- The exporter state the source's methods touch: the guarded client,
the fixed collector endpoint, and the preconfigured custom headers. -/
structure OtlpHttpClient where
  client : GuardedClient
  collector_endpoint : String
  headers : List (String × String)

/-- Observable events of one `export` call, in source order: acquiring
and releasing the mutex guard, running the payload encoding
(`build_body`), and invoking the transport's `send`. -/
inductive Ev where
  | lockAcquire
  | lockRelease
  | encode
  | send (r : HttpRequest)
deriving DecidableEq, Repr

/-- UTF-8 continuation byte: `0x80..=0xBF`. -/
def contByte (b : Nat) : Bool := 0x80 ≤ b && b ≤ 0xBF

/-- Semantics of `std::str::from_utf8`: validate and decode a byte sequence
as UTF-8 (rejecting overlong forms, surrogates and out-of-range code
points), yielding the character sequence, or `none` when invalid. -/
def utf8Decode : List Nat → Option (List Char)
  | [] => some []
  | b :: bs =>
    if b < 0x80 then
      (utf8Decode bs).map (fun cs => Char.ofNat b :: cs)
    else if b < 0xC2 then none
    else if b ≤ 0xDF then
      match bs with
      | b1 :: bs' =>
        if contByte b1 then
          (utf8Decode bs').map (fun cs =>
            Char.ofNat ((b - 0xC0) * 0x40 + (b1 - 0x80)) :: cs)
        else none
      | [] => none
    else if b ≤ 0xEF then
      match bs with
      | b1 :: b2 :: bs' =>
        let lo1 := if b = 0xE0 then 0xA0 else 0x80
        let hi1 := if b = 0xED then 0x9F else 0xBF
        if lo1 ≤ b1 && b1 ≤ hi1 && contByte b2 then
          (utf8Decode bs').map (fun cs =>
            Char.ofNat ((b - 0xE0) * 0x1000 + (b1 - 0x80) * 0x40 + (b2 - 0x80)) :: cs)
        else none
      | _ => none
    else if b ≤ 0xF4 then
      match bs with
      | b1 :: b2 :: b3 :: bs' =>
        let lo1 := if b = 0xF0 then 0x90 else 0x80
        let hi1 := if b = 0xF4 then 0x8F else 0xBF
        if lo1 ≤ b1 && b1 ≤ hi1 && contByte b2 && contByte b3 then
          (utf8Decode bs').map (fun cs =>
            Char.ofNat ((b - 0xF0) * 0x40000 + (b1 - 0x80) * 0x1000
              + (b2 - 0x80) * 0x40 + (b3 - 0x80)) :: cs)
        else none
      | _ => none
    else none

/-- The placeholder used when the response body is not valid UTF-8. -/
def bodyPlaceholder : String := "response body cannot be decoded"

/-- Computation `std::str::from_utf8(body).unwrap_or("response body cannot be decoded")`. -/
def bodyText (body : List Nat) : String :=
  match utf8Decode body with
  | some cs => String.mk cs
  | none => bodyPlaceholder

/-- The message of the non-2xx failure:
`format!("request failed with status {} (Body: {})", status, body_msg)`.
The numeric part of `StatusCode`'s display is kept; its canonical reason
phrase lives in the external `http` crate and is elided. -/
def rejectionMessage (status : Nat) (bodyMsg : String) : String :=
  "request failed with status " ++ toString status ++ " (Body: " ++ bodyMsg ++ ")"

/-- Function `build_body(metrics: &mut ResourceMetrics)`.  Here `feat` is the
compile-time `http-proto` feature; `encodeBatch` is the abstract protobuf
encoding (`ExportMetricsServiceRequest::from(&*metrics).encode(..)`),
which only reads the batch.  Returns the result together with the batch
value after the call (the source never writes through the reference). -/
def build_body (feat : Bool) (encodeBatch : ResourceMetrics → Except String (List Nat))
    (metrics : ResourceMetrics) :
    Except MetricsError (List Nat × String) × ResourceMetrics :=
  if feat then
    match encodeBatch metrics with
    | .error e => (.error (.exportErr (.encodeFailed e)), metrics)
    | .ok buf => (.ok (buf, "application/x-protobuf"), metrics)
  else
    (.error (.other noProtocolMsg), metrics)

/-- Outcome of one `export` call: the `Result<()>`, the exporter state
after the call, the batch after the call, and the event trace. -/
structure ExportOutcome where
  result : Except MetricsError Unit
  state : OtlpHttpClient
  metrics : ResourceMetrics
  events : List Ev

/-- The message standing for the `Display` of the `http::Error` returned
by the request builder chain when the configured URI is invalid. -/
def invalidUriMsg : String := "invalid uri"

/-- Chain `http::Request::builder().method(POST).uri(..).header(CONTENT_TYPE, ..)
.body(body)`: the only failure the source can hit in this chain is an
invalid collector endpoint URI, abstracted as the predicate `uriOk`. -/
def buildRequest (uriOk : String → Bool) (endpoint ct : String)
    (body : List Nat) : Except String HttpRequest :=
  if uriOk endpoint then
    .ok { method := "POST", uri := endpoint,
          headers := [("content-type", ct)], body := body }
  else .error invalidUriMsg

/-- The request `export` hands to the transport under given content type
and body: the builder's request with the custom headers overlaid
(`request.headers_mut().insert(k, v)` for each configured header). -/
def withCustomHeaders (request₀ : HttpRequest)
    (custom : List (String × String)) : HttpRequest :=
  { request₀ with headers := insertHeaders request₀.headers custom }

/-- Method `export` of `impl MetricsClient for OtlpHttpClient`, step for step:
lock and read the guarded client (guard released at the end of the
`and_then` closure, before anything else runs), `build_body`, build the
request, overlay the custom headers, send, classify the response. -/
def «export» (uriOk : String → Bool) (feat : Bool)
    (encodeBatch : ResourceMetrics → Except String (List Nat))
    (c : OtlpHttpClient) (metrics : ResourceMetrics) : ExportOutcome :=
  match c.client.lock with
  | .error _ =>
    ⟨.error (.other poisonedLockMsg), c, metrics, [Ev.lockAcquire, Ev.lockRelease]⟩
  | .ok none =>
    ⟨.error (.other alreadyShutDownMsg), c, metrics, [Ev.lockAcquire, Ev.lockRelease]⟩
  | .ok (some client) =>
    match build_body feat encodeBatch metrics with
    | (.error e, metrics') =>
      ⟨.error e, c, metrics', [Ev.lockAcquire, Ev.lockRelease, Ev.encode]⟩
    | (.ok (body, content_type), metrics') =>
      match buildRequest uriOk c.collector_endpoint content_type body with
      | .error e =>
        ⟨.error (.exportErr (.requestFailed e)), c, metrics',
          [Ev.lockAcquire, Ev.lockRelease, Ev.encode]⟩
      | .ok request₀ =>
        match client (withCustomHeaders request₀ c.headers) with
        | .error e =>
          ⟨.error (.exportErr (.requestFailed e)), c, metrics',
            [Ev.lockAcquire, Ev.lockRelease, Ev.encode,
              Ev.send (withCustomHeaders request₀ c.headers)]⟩
        | .ok response =>
          if isSuccess response.status then
            ⟨.ok (), c, metrics',
              [Ev.lockAcquire, Ev.lockRelease, Ev.encode,
                Ev.send (withCustomHeaders request₀ c.headers)]⟩
          else
            ⟨.error (.exportErr (.requestFailed
                (rejectionMessage response.status (bodyText response.body)))),
              c, metrics',
              [Ev.lockAcquire, Ev.lockRelease, Ev.encode,
                Ev.send (withCustomHeaders request₀ c.headers)]⟩

/-- Method `shutdown` of `impl MetricsClient for OtlpHttpClient`:
`let _ = self.client.lock()?.take(); Ok(())`. -/
def shutdown (c : OtlpHttpClient) : Except MetricsError Unit × OtlpHttpClient :=
  match c.client.lock with
  | .error _ => (.error (.other poisonedLockMsg), c)
  | .ok _ => (.ok (), { c with client := { c.client with value := none } })

/-- One call against the exporter, for reasoning about call sequences:
either an `export` (with its per-call inputs) or a `shutdown`. -/
inductive Op where
  | exportOp (uriOk : String → Bool) (feat : Bool)
      (encodeBatch : ResourceMetrics → Except String (List Nat))
      (metrics : ResourceMetrics)
  | shutdownOp

/-- The exporter state after one call. -/
def runOp (c : OtlpHttpClient) : Op → OtlpHttpClient
  | .exportOp uriOk feat enc m => («export» uriOk feat enc c m).state
  | .shutdownOp => (shutdown c).2

/-- The exporter state after a sequence of calls. -/
def runOps (c : OtlpHttpClient) (ops : List Op) : OtlpHttpClient :=
  ops.foldl runOp c

/-! ### Concrete fixtures used by the witnesses -/

def uriAlwaysOk : String → Bool := fun _ => true

def uriNeverOk : String → Bool := fun _ => false

def encConst : ResourceMetrics → Except String (List Nat) := fun _ => .ok [8, 9]

def sampleMetrics : ResourceMetrics := ⟨7, [1, 2, 3]⟩

/-- A transport handle that always answers with the given response. -/
def constClient (resp : HttpResponse) : ClientHandle := fun _ => .ok resp

/-- An exporter with the given guarded client, a fixed endpoint and one
custom header. -/
def exporterWith (g : GuardedClient) : OtlpHttpClient :=
  ⟨g, "http://collector:4318/v1/metrics", [("x-test", "abc")]⟩

/-! ### Helper lemmas -/

/-- The method `export` takes `&self` and never writes the guarded client: the state
after the call is the state before it, on every path. -/
theorem export_state_eq (uriOk : String → Bool) (feat : Bool)
    (enc : ResourceMetrics → Except String (List Nat))
    (c : OtlpHttpClient) (m : ResourceMetrics) :
    («export» uriOk feat enc c m).state = c := by
  unfold «export»
  repeat' split
  all_goals rfl

/-- The helper `build_body` never writes the batch: the batch after the call equals
the input batch. -/
theorem build_body_metrics_eq (feat : Bool)
    (enc : ResourceMetrics → Except String (List Nat)) (m : ResourceMetrics) :
    (build_body feat enc m).2 = m := by
  unfold build_body
  by_cases h : feat <;> simp [h]
  rcases enc m with e | buf <;> rfl

theorem insertHeaders_nil (base : List (String × String)) :
    insertHeaders base [] = base := rfl

theorem insertHeaders_cons (base : List (String × String))
    (p : String × String) (t : List (String × String)) :
    insertHeaders base (p :: t) = insertHeaders (headerInsert base p.1 p.2) t := rfl

/-- Inserting a header makes its value the stored one. -/
theorem headerGet_insert_self (hs : List (String × String)) (k v : String) :
    headerGet (headerInsert hs k v) k = some v := by
  simp [headerGet, headerInsert]

/-- Dropping the entries of one name does not change lookups of another. -/
theorem find_filter_ne (hs : List (String × String)) (k k' : String)
    (h : k' ≠ k) :
    (hs.filter (fun p => p.1 != k)).find? (fun p => p.1 == k') =
      hs.find? (fun p => p.1 == k') := by
  induction hs with
  | nil => rfl
  | cons p t ih =>
    obtain ⟨a, b⟩ := p
    by_cases hk : a = k
    · subst hk
      have hne : (a == k') = false := by
        simp
        exact fun hc => h hc.symm
      simp [List.filter_cons, List.find?_cons, hne, ih]
    · by_cases hk' : a = k'
      · subst hk'
        simp [List.filter_cons, List.find?_cons, hk]
      · simp [List.filter_cons, List.find?_cons, hk, hk', ih]

/-- Inserting a header does not change lookups of other names. -/
theorem headerGet_insert_other (hs : List (String × String)) (k v k' : String)
    (h : k' ≠ k) : headerGet (headerInsert hs k v) k' = headerGet hs k' := by
  have hne : (k == k') = false := by
    simp
    exact fun hc => h hc.symm
  simp [headerGet, headerInsert, List.find?_cons, hne, find_filter_ne hs k k' h]

/-- Overlaying custom headers does not change lookups of names not among
them. -/
theorem headerGet_insertHeaders_of_not_mem (base : List (String × String))
    (custom : List (String × String)) (k : String)
    (h : k ∉ custom.map Prod.fst) :
    headerGet (insertHeaders base custom) k = headerGet base k := by
  induction custom generalizing base with
  | nil => rfl
  | cons p t ih =>
    simp only [List.map_cons, List.mem_cons, not_or] at h
    rw [insertHeaders_cons, ih _ h.2, headerGet_insert_other _ _ _ _ h.1]

/-- Each configured custom header (names pairwise distinct) is the stored
value for its name after the overlay: last write wins. -/
theorem headerGet_insertHeaders_of_mem (base : List (String × String))
    (custom : List (String × String))
    (hnd : (custom.map Prod.fst).Nodup)
    (k v : String) (hmem : (k, v) ∈ custom) :
    headerGet (insertHeaders base custom) k = some v := by
  induction custom generalizing base with
  | nil => cases hmem
  | cons p t ih =>
    simp only [List.map_cons, List.nodup_cons] at hnd
    rcases List.mem_cons.mp hmem with heq | hmem'
    · subst heq
      rw [insertHeaders_cons,
        headerGet_insertHeaders_of_not_mem _ _ _ hnd.1]
      exact headerGet_insert_self base k v
    · exact ih _ hnd.2 hmem'

/-- The batch after an `export` call equals the batch before it, on every
path. -/
theorem export_metrics_eq (uriOk : String → Bool) (feat : Bool)
    (enc : ResourceMetrics → Except String (List Nat))
    (c : OtlpHttpClient) (m : ResourceMetrics) :
    («export» uriOk feat enc c m).metrics = m := by
  have hb := build_body_metrics_eq feat enc m
  unfold «export»
  repeat' split
  all_goals simp_all

/-- A shut-down exporter stays shut down across one further call of either
kind. -/
theorem runOp_value_none (c : OtlpHttpClient) (op : Op)
    (hv : c.client.value = none) : (runOp c op).client.value = none := by
  cases op with
  | exportOp uriOk feat enc m =>
    rw [runOp, export_state_eq]
    exact hv
  | shutdownOp =>
    rw [runOp, shutdown]
    split
    · exact hv
    · rfl

/-! ### Claims -/

/-- C1: when the guarded optional client is absent (and the lock is not
poisoned), `export` fails with the already-shut-down error and the
transport's `send` is never invoked. -/
theorem export_after_shutdown_fails_without_send
    (uriOk : String → Bool) (feat : Bool)
    (enc : ResourceMetrics → Except String (List Nat))
    (c : OtlpHttpClient) (m : ResourceMetrics)
    (hp : c.client.poisoned = false) (hv : c.client.value = none) :
    («export» uriOk feat enc c m).result = .error (.other alreadyShutDownMsg) ∧
    ∀ r, Ev.send r ∉ («export» uriOk feat enc c m).events := by
  have hl : c.client.lock = .ok none := by
    simp [GuardedClient.lock, hp, hv]
  unfold «export»
  rw [hl]
  exact ⟨rfl, by intro r; simp⟩

theorem export_after_shutdown_fails_without_send_witness :
    («export» uriAlwaysOk true encConst (exporterWith ⟨false, none⟩)
        sampleMetrics).result = .error (.other alreadyShutDownMsg) ∧
    ∀ r, Ev.send r ∉ («export» uriAlwaysOk true encConst
        (exporterWith ⟨false, none⟩) sampleMetrics).events :=
  export_after_shutdown_fails_without_send uriAlwaysOk true encConst
    (exporterWith ⟨false, none⟩) sampleMetrics rfl rfl

/-- C2: once the guarded optional client is absent, it stays absent under
every further sequence of `export` and `shutdown` calls. -/
theorem shutdown_is_terminal (c : OtlpHttpClient) (ops : List Op)
    (hv : c.client.value = none) :
    (runOps c ops).client.value = none := by
  induction ops generalizing c with
  | nil => exact hv
  | cons op t ih =>
    rw [runOps, List.foldl_cons]
    exact ih (runOp c op) (runOp_value_none c op hv)

theorem shutdown_is_terminal_witness :
    (runOps (exporterWith ⟨false, none⟩)
      [Op.shutdownOp, Op.exportOp uriAlwaysOk true encConst sampleMetrics,
        Op.shutdownOp]).client.value = none :=
  shutdown_is_terminal (exporterWith ⟨false, none⟩) _ rfl

/-- C8: `export` does not mutate the metrics batch: on every path (and in
particular through `build_body`) the batch after the call equals the batch
before it. -/
theorem export_does_not_mutate_batch
    (uriOk : String → Bool) (feat : Bool)
    (enc : ResourceMetrics → Except String (List Nat))
    (c : OtlpHttpClient) (m : ResourceMetrics) :
    (build_body feat enc m).2 = m ∧
    («export» uriOk feat enc c m).metrics = m :=
  ⟨build_body_metrics_eq feat enc m, export_metrics_eq uriOk feat enc c m⟩

/-- C9: in every `export` call the trace starts with the lock acquisition
immediately followed by the lock release, and everything after (payload
encoding, transport send) happens with the lock released. -/
theorem lock_released_before_io
    (uriOk : String → Bool) (feat : Bool)
    (enc : ResourceMetrics → Except String (List Nat))
    (c : OtlpHttpClient) (m : ResourceMetrics) :
    ∃ t, («export» uriOk feat enc c m).events =
        [Ev.lockAcquire, Ev.lockRelease] ++ t ∧
      ∀ e ∈ t, e = Ev.encode ∨ ∃ r, e = Ev.send r := by
  unfold «export»
  repeat' split
  all_goals refine ⟨_, rfl, ?_⟩
  all_goals simp

/-- C3: a non-2xx response makes `export` fail with the request-failed
error carrying the numeric status and the body decoded as UTF-8, where an
invalid-UTF-8 body decodes to the fixed placeholder string. -/
theorem export_non2xx_rejected
    (uriOk : String → Bool)
    (enc : ResourceMetrics → Except String (List Nat))
    (c : OtlpHttpClient) (m : ResourceMetrics)
    (client : ClientHandle) (resp : HttpResponse) (buf : List Nat)
    (hp : c.client.poisoned = false)
    (hv : c.client.value = some client)
    (hresp : ∀ r, client r = .ok resp)
    (henc : enc m = .ok buf)
    (huri : uriOk c.collector_endpoint = true)
    (hs : isSuccess resp.status = false) :
    («export» uriOk true enc c m).result =
      .error (.exportErr (.requestFailed
        ("request failed with status " ++ toString resp.status ++
          " (Body: " ++ bodyText resp.body ++ ")"))) ∧
    (utf8Decode resp.body = none → bodyText resp.body = bodyPlaceholder) := by
  have hl : c.client.lock = .ok (some client) := by
    simp [GuardedClient.lock, hp, hv]
  have hb : build_body true enc m = (.ok (buf, "application/x-protobuf"), m) := by
    simp [build_body, henc]
  have hr : buildRequest uriOk c.collector_endpoint "application/x-protobuf" buf =
      .ok ⟨"POST", c.collector_endpoint,
        [("content-type", "application/x-protobuf")], buf⟩ := by
    simp [buildRequest, huri]
  constructor
  · unfold «export»
    simp only [hl, hb, hr, hresp, hs]
    simp [rejectionMessage]
  · intro h
    simp [bodyText, h]

theorem export_non2xx_rejected_witness :
    («export» uriAlwaysOk true encConst
        (exporterWith ⟨false, some (constClient ⟨500, [255]⟩)⟩)
        sampleMetrics).result =
      .error (.exportErr (.requestFailed
        ("request failed with status " ++ toString (500 : Nat) ++
          " (Body: " ++ bodyText [255] ++ ")"))) ∧
    (utf8Decode [255] = none → bodyText [255] = bodyPlaceholder) :=
  export_non2xx_rejected uriAlwaysOk encConst
    (exporterWith ⟨false, some (constClient ⟨500, [255]⟩)⟩) sampleMetrics
    (constClient ⟨500, [255]⟩) ⟨500, [255]⟩ [8, 9]
    rfl rfl (fun _ => rfl) rfl rfl (by decide)

/-- C4: a response with status in the 200–299 range makes `export` (with
an active transport and a batch that encodes successfully) return success,
for every response body. -/
theorem export_2xx_success
    (uriOk : String → Bool)
    (enc : ResourceMetrics → Except String (List Nat))
    (c : OtlpHttpClient) (m : ResourceMetrics)
    (client : ClientHandle) (resp : HttpResponse) (buf : List Nat)
    (hp : c.client.poisoned = false)
    (hv : c.client.value = some client)
    (hresp : ∀ r, client r = .ok resp)
    (henc : enc m = .ok buf)
    (huri : uriOk c.collector_endpoint = true)
    (hs : isSuccess resp.status = true) :
    («export» uriOk true enc c m).result = .ok () := by
  have hl : c.client.lock = .ok (some client) := by
    simp [GuardedClient.lock, hp, hv]
  have hb : build_body true enc m = (.ok (buf, "application/x-protobuf"), m) := by
    simp [build_body, henc]
  have hr : buildRequest uriOk c.collector_endpoint "application/x-protobuf" buf =
      .ok ⟨"POST", c.collector_endpoint,
        [("content-type", "application/x-protobuf")], buf⟩ := by
    simp [buildRequest, huri]
  unfold «export»
  simp only [hl, hb, hr, hresp, hs]
  simp

theorem export_2xx_success_witness :
    («export» uriAlwaysOk true encConst
        (exporterWith ⟨false, some (constClient ⟨204, [9, 9]⟩)⟩)
        sampleMetrics).result = .ok () :=
  export_2xx_success uriAlwaysOk encConst
    (exporterWith ⟨false, some (constClient ⟨204, [9, 9]⟩)⟩) sampleMetrics
    (constClient ⟨204, [9, 9]⟩) ⟨204, [9, 9]⟩ [8, 9]
    rfl rfl (fun _ => rfl) rfl rfl (by decide)

/-- C5: with the `http-proto` feature absent, `build_body` fails with the
configuration error for every batch, and `export` (even on an active
transport) fails with that error without invoking the transport's send. -/
theorem no_http_proto_config_error
    (uriOk : String → Bool)
    (enc : ResourceMetrics → Except String (List Nat))
    (c : OtlpHttpClient) (m : ResourceMetrics) (client : ClientHandle)
    (hp : c.client.poisoned = false)
    (hv : c.client.value = some client) :
    (∀ b : ResourceMetrics,
      (build_body false enc b).1 = .error (.other noProtocolMsg)) ∧
    («export» uriOk false enc c m).result = .error (.other noProtocolMsg) ∧
    ∀ r, Ev.send r ∉ («export» uriOk false enc c m).events := by
  have hl : c.client.lock = .ok (some client) := by
    simp [GuardedClient.lock, hp, hv]
  refine ⟨fun b => rfl, ?_, ?_⟩
  · unfold «export»
    rw [hl]
    rfl
  · intro r
    unfold «export»
    rw [hl]
    simp [build_body]

theorem no_http_proto_config_error_witness :
    (∀ b : ResourceMetrics,
      (build_body false encConst b).1 = .error (.other noProtocolMsg)) ∧
    («export» uriAlwaysOk false encConst
        (exporterWith ⟨false, some (constClient ⟨200, []⟩)⟩)
        sampleMetrics).result = .error (.other noProtocolMsg) ∧
    ∀ r, Ev.send r ∉ («export» uriAlwaysOk false encConst
        (exporterWith ⟨false, some (constClient ⟨200, []⟩)⟩)
        sampleMetrics).events :=
  no_http_proto_config_error uriAlwaysOk encConst
    (exporterWith ⟨false, some (constClient ⟨200, []⟩)⟩) sampleMetrics
    (constClient ⟨200, []⟩) rfl rfl

/-- C6: `shutdown` is idempotent — a second call on an already shut-down
exporter succeeds and leaves the handle absent — and a `shutdown` call
fails exactly when the lock is poisoned. -/
theorem shutdown_idempotent (c : OtlpHttpClient) :
    (c.client.poisoned = false →
      (shutdown ((shutdown c).2)).1 = .ok () ∧
      (shutdown ((shutdown c).2)).2.client.value = none) ∧
    ((shutdown c).1 = .ok () ↔ c.client.poisoned = false) := by
  constructor
  · intro hp
    simp [shutdown, GuardedClient.lock, hp]
  · by_cases hp : c.client.poisoned <;>
      simp [shutdown, GuardedClient.lock, hp]

theorem shutdown_idempotent_witness :
    ((shutdown ((shutdown (exporterWith ⟨false, some (constClient ⟨200, [1]⟩)⟩)).2)).1
        = .ok () ∧
      (shutdown ((shutdown (exporterWith ⟨false, some (constClient ⟨200, [1]⟩)⟩)).2)).2.client.value
        = none) ∧
    ((shutdown (exporterWith ⟨false, some (constClient ⟨200, [1]⟩)⟩)).1 = .ok () ↔
      (exporterWith ⟨false, some (constClient ⟨200, [1]⟩)⟩).client.poisoned = false) :=
  ⟨(shutdown_idempotent (exporterWith ⟨false, some (constClient ⟨200, [1]⟩)⟩)).1 rfl,
    (shutdown_idempotent (exporterWith ⟨false, some (constClient ⟨200, [1]⟩)⟩)).2⟩

/-- C7: every export that reaches the send step sends a request with
method POST, the fixed collector endpoint as URI, the content-type header
of the chosen format, and every preconfigured custom header stored with
its configured value (custom headers win over the content-type header on
duplicate names, last-write-wins). -/
theorem export_request_shape
    (uriOk : String → Bool)
    (enc : ResourceMetrics → Except String (List Nat))
    (c : OtlpHttpClient) (m : ResourceMetrics)
    (client : ClientHandle) (buf : List Nat)
    (hp : c.client.poisoned = false)
    (hv : c.client.value = some client)
    (henc : enc m = .ok buf)
    (huri : uriOk c.collector_endpoint = true)
    (hnd : (c.headers.map Prod.fst).Nodup) :
    ∃ req, Ev.send req ∈ («export» uriOk true enc c m).events ∧
      req.method = "POST" ∧
      req.uri = c.collector_endpoint ∧
      req.body = buf ∧
      (∀ kv ∈ c.headers, headerGet req.headers kv.1 = some kv.2) ∧
      ("content-type" ∉ c.headers.map Prod.fst →
        headerGet req.headers "content-type" = some "application/x-protobuf") := by
  have hl : c.client.lock = .ok (some client) := by
    simp [GuardedClient.lock, hp, hv]
  have hb : build_body true enc m = (.ok (buf, "application/x-protobuf"), m) := by
    simp [build_body, henc]
  have hr : buildRequest uriOk c.collector_endpoint "application/x-protobuf" buf =
      .ok ⟨"POST", c.collector_endpoint,
        [("content-type", "application/x-protobuf")], buf⟩ := by
    simp [buildRequest, huri]
  refine ⟨withCustomHeaders
      ⟨"POST", c.collector_endpoint,
        [("content-type", "application/x-protobuf")], buf⟩ c.headers,
    ?_, rfl, rfl, rfl, ?_, ?_⟩
  · unfold «export»
    simp only [hl, hb, hr]
    rcases hc : client (withCustomHeaders
        ⟨"POST", c.collector_endpoint,
          [("content-type", "application/x-protobuf")], buf⟩ c.headers)
      with e | resp
    · simp [hc]
    · by_cases hs : isSuccess resp.status = true <;> simp [hc, hs]
  · intro kv hkv
    have := headerGet_insertHeaders_of_mem
      [("content-type", "application/x-protobuf")] c.headers hnd kv.1 kv.2
      (by simpa using hkv)
    simpa [withCustomHeaders] using this
  · intro hnm
    have := headerGet_insertHeaders_of_not_mem
      [("content-type", "application/x-protobuf")] c.headers "content-type" hnm
    rw [withCustomHeaders]
    simp only [this]
    simp [headerGet]

theorem export_request_shape_witness :
    ∃ req, Ev.send req ∈ («export» uriAlwaysOk true encConst
        (exporterWith ⟨false, some (constClient ⟨200, []⟩)⟩)
        sampleMetrics).events ∧
      req.method = "POST" ∧
      req.uri = (exporterWith ⟨false, some (constClient ⟨200, []⟩)⟩).collector_endpoint ∧
      req.body = [8, 9] ∧
      (∀ kv ∈ (exporterWith ⟨false, some (constClient ⟨200, []⟩)⟩).headers,
        headerGet req.headers kv.1 = some kv.2) ∧
      ("content-type" ∉ (exporterWith ⟨false, some (constClient ⟨200, []⟩)⟩).headers.map Prod.fst →
        headerGet req.headers "content-type" = some "application/x-protobuf") :=
  export_request_shape uriAlwaysOk encConst
    (exporterWith ⟨false, some (constClient ⟨200, []⟩)⟩) sampleMetrics
    (constClient ⟨200, []⟩) [8, 9] rfl rfl rfl rfl (by decide)

/-- C10: when the request builder fails (invalid collector endpoint URI),
`export` returns the request-failed error, the transport's send is never
invoked, and the exporter state is unchanged. -/
theorem export_invalid_uri_fails_without_send
    (uriOk : String → Bool)
    (enc : ResourceMetrics → Except String (List Nat))
    (c : OtlpHttpClient) (m : ResourceMetrics)
    (client : ClientHandle) (buf : List Nat)
    (hp : c.client.poisoned = false)
    (hv : c.client.value = some client)
    (henc : enc m = .ok buf)
    (huri : uriOk c.collector_endpoint = false) :
    («export» uriOk true enc c m).result =
      .error (.exportErr (.requestFailed invalidUriMsg)) ∧
    (∀ r, Ev.send r ∉ («export» uriOk true enc c m).events) ∧
    («export» uriOk true enc c m).state = c := by
  have hl : c.client.lock = .ok (some client) := by
    simp [GuardedClient.lock, hp, hv]
  have hb : build_body true enc m = (.ok (buf, "application/x-protobuf"), m) := by
    simp [build_body, henc]
  have hr : buildRequest uriOk c.collector_endpoint "application/x-protobuf" buf =
      .error invalidUriMsg := by
    simp [buildRequest, huri]
  refine ⟨?_, ?_, export_state_eq uriOk true enc c m⟩
  · unfold «export»
    simp only [hl, hb, hr]
  · intro r
    unfold «export»
    simp only [hl, hb, hr]
    simp

theorem export_invalid_uri_fails_without_send_witness :
    («export» uriNeverOk true encConst
        (exporterWith ⟨false, some (constClient ⟨200, []⟩)⟩)
        sampleMetrics).result =
      .error (.exportErr (.requestFailed invalidUriMsg)) ∧
    (∀ r, Ev.send r ∉ («export» uriNeverOk true encConst
        (exporterWith ⟨false, some (constClient ⟨200, []⟩)⟩)
        sampleMetrics).events) ∧
    («export» uriNeverOk true encConst
        (exporterWith ⟨false, some (constClient ⟨200, []⟩)⟩)
        sampleMetrics).state = exporterWith ⟨false, some (constClient ⟨200, []⟩)⟩ :=
  export_invalid_uri_fails_without_send uriNeverOk encConst
    (exporterWith ⟨false, some (constClient ⟨200, []⟩)⟩) sampleMetrics
    (constClient ⟨200, []⟩) [8, 9] rfl rfl rfl rfl
